import Mathlib

/-!
Shallow embedding of the Resume Evaluation Engine of
`simantsah/resume-analyzer-app` (`src/main.py`), together with proofs
about the claims of its specification.

The embedding covers, faithfully to the Python source:
  * `parse_analysis` (field extraction, first-pass score regex scan,
    numeric post-processing, the fallback trigger, the heuristic
    normalizer, and the final scoring step);
  * `calculate_skills_scores` (the fallback skill matcher);
  * `calculate_scores` (the scoring engine);
  * the helper functions they call (`clean_text`,
    `check_competitor_experience`, `extract_linkedin_url`,
    `extract_phone_number`, `get_planful_competitors`).

Python `float` values are modelled as exact rationals (`ℚ`); Python
regular expressions are modelled by explicit character-list scanners
(and a small backtracking interpreter for the URL/phone patterns) with
the semantics of the patterns that actually occur in the source.
-/

/-! ## Python-style character and string utilities -/

/-- The characters of Python's `\s` regex class / `str.strip` default set
(ASCII part: space, tab, newline, carriage return, vertical tab, form feed). -/
def isPySpace (c : Char) : Bool :=
  c = ' ' || c = '\t' || c = '\n' || c = '\r' || c = Char.ofNat 11 || c = Char.ofNat 12

/-- ASCII decimal digit, Python's `\d` on ASCII input. -/
def isDigitCh (c : Char) : Bool :=
  '0' ≤ c && c ≤ '9'

/-- Python's `\w` word-character class on ASCII input: letters, digits, underscore. -/
def isWordCh (c : Char) : Bool :=
  ('a' ≤ c && c ≤ 'z') || ('A' ≤ c && c ≤ 'Z') || isDigitCh c || c = '_'

/-- Python `str.lower()` (ASCII). -/
def pyLower (s : String) : String :=
  String.mk (s.toList.map Char.toLower)

/-- Python `str.upper()` (ASCII). -/
def pyUpper (s : String) : String :=
  String.mk (s.toList.map Char.toUpper)

/-- Python `str.strip()` (whitespace from both ends). -/
def pyStrip (s : String) : String :=
  String.mk (((s.toList.dropWhile (fun c => isPySpace c)).reverse.dropWhile
    (fun c => isPySpace c)).reverse)

/-- Whether `pat` occurs as a (contiguous) substring of `s`; Python's `pat in s`. -/
def substrOf (pat s : String) : Bool :=
  let p := pat.toList
  let rec go : List Char → Bool
    | [] => p.isPrefixOf []
    | c :: rest => p.isPrefixOf (c :: rest) || go rest
  go s.toList

/-- Python `':' in line`. -/
def hasColon (s : String) : Bool :=
  s.toList.contains ':'

/-- The part of `line` before the first `':'` — `line.split(':', 1)[0]`. -/
def beforeColon (line : String) : String :=
  String.mk (line.toList.takeWhile (fun c => c ≠ ':'))

/-- The part of `line` after the first `':'` — `line.split(':', 1)[1]`
(the whole line when there is no colon; callers only use it after `hasColon`). -/
def afterColon (line : String) : String :=
  String.mk ((line.toList.dropWhile (fun c => c ≠ ':')).drop 1)

/-- Python `'\n'.join(xs)`. -/
def joinNewline : List String → String
  | [] => ""
  | x :: rest => rest.foldl (fun a b => a ++ "\n" ++ b) x

/-- Python `s.split('\n')`. -/
def pySplitNewlines (s : String) : List String :=
  let rec go : List Char → List Char → List String
    | [], acc => [String.mk acc.reverse]
    | '\n' :: rest, acc => String.mk acc.reverse :: go rest []
    | c :: rest, acc => go rest (c :: acc)
  go s.toList []

/-- Python `s.startswith(pre)`. -/
def pyStartsWith (s pre : String) : Bool :=
  pre.toList.isPrefixOf s.toList

/-- Strip a maximal trailing run of characters satisfying `p`
(models `re.sub(r'[...]+$', '', s)`). -/
def stripTrailing (p : Char → Bool) (s : String) : String :=
  String.mk ((s.toList.reverse.dropWhile p).reverse)

/-- Python `s.replace(old, new)` for a non-empty `old`
(replaces every non-overlapping occurrence, left to right). -/
def pyReplace (s old new : String) : String :=
  let o := old.toList
  let n := new.toList
  let rec go (fuel : Nat) (cs : List Char) : List Char :=
    match fuel, cs with
    | 0, cs => cs
    | _, [] => []
    | fuel + 1, c :: rest =>
      if o ≠ [] && o.isPrefixOf (c :: rest) then
        n ++ go fuel ((c :: rest).drop o.length)
      else
        c :: go fuel rest
  String.mk (go (s.toList.length + 1) s.toList)

/-! ## Rational-number helpers (Python floats modelled exactly) -/

/-- Python `round(x)`: round to nearest integer, ties to even. -/
def pythonRoundInt (x : ℚ) : ℤ :=
  let f : ℤ := ⌊x⌋
  let r : ℚ := x - (f : ℚ)
  if r < 1/2 then f
  else if 1/2 < r then f + 1
  else if f % 2 = 0 then f else f + 1

/-- Python `str(round(x, 1))` for a nonnegative `x` (floats are printed with
at least one digit after the point, trailing zero kept: `str(50.0) = "50.0"`). -/
def fmtRound1 (x : ℚ) : String :=
  let m : ℤ := pythonRoundInt (x * 10)
  toString (m / 10) ++ "." ++ toString (m % 10)

/-- Python `f"{x:.1f}"` formatting for a nonnegative `x`. -/
def fmtFixed1 (x : ℚ) : String := fmtRound1 x

/-- Python `str(round(x, 2))` for a nonnegative `x` (`str` of a float drops a
trailing zero in the hundredths place: `str(6.80) = "6.8"`, `str(6.0) = "6.0"`). -/
def fmtRound2 (x : ℚ) : String :=
  let m : ℤ := pythonRoundInt (x * 100)
  let ip := toString (m / 100)
  let fr := m % 100
  if fr = 0 then ip ++ ".0"
  else if fr % 10 = 0 then ip ++ "." ++ toString (fr / 10)
  else if fr < 10 then ip ++ ".0" ++ toString fr
  else ip ++ "." ++ toString fr

/-- Python `float(s)` on the finite decimal literals that occur in this
pipeline: optional sign, digits with an optional fractional part, optional
exponent, surrounded by optional whitespace (`nan`/`inf`/underscore literals
are not modelled; every non-literal input yields `none`, as `float` raises). -/
def parsePyFloat (s : String) : Option ℚ :=
  let cs := (pyStrip s).toList
  let (sign, cs) : ℚ × List Char :=
    match cs with
    | '+' :: rest => (1, rest)
    | '-' :: rest => (-1, rest)
    | rest => (1, rest)
  let intDigits := cs.takeWhile (fun c => isDigitCh c)
  let cs1 := cs.drop intDigits.length
  let (fracDigits, cs2) : List Char × List Char :=
    match cs1 with
    | '.' :: rest => (rest.takeWhile (fun c => isDigitCh c),
        rest.drop (rest.takeWhile (fun c => isDigitCh c)).length)
    | rest => ([], rest)
  if intDigits.isEmpty && fracDigits.isEmpty then none
  else
    let digitVal (c : Char) : ℕ := c.toNat - '0'.toNat
    let ipart : ℕ := intDigits.foldl (fun a c => a * 10 + digitVal c) 0
    let fpart : ℚ := (fracDigits.foldl (fun a c => a * 10 + digitVal c) 0 : ℚ) /
      ((10 : ℚ) ^ fracDigits.length)
    let base : ℚ := sign * ((ipart : ℚ) + fpart)
    match cs2 with
    | [] => some base
    | 'e' :: rest => parseExp base rest
    | 'E' :: rest => parseExp base rest
    | _ => none
where
  parseExp (base : ℚ) (cs : List Char) : Option ℚ :=
    let (esign, cs) : Bool × List Char :=
      match cs with
      | '+' :: rest => (false, rest)
      | '-' :: rest => (true, rest)
      | rest => (false, rest)
    let eDigits := cs.takeWhile (fun c => isDigitCh c)
    if eDigits.isEmpty || cs.drop eDigits.length ≠ [] then none
    else
      let e : ℕ := eDigits.foldl (fun a c => a * 10 + (c.toNat - '0'.toNat)) 0
      some (if esign then base / (10 : ℚ) ^ e else base * (10 : ℚ) ^ e)

/-! ## Number-token scanners (the `\d+(?:\.\d+)?` patterns) -/

/-- The maximal number token starting exactly at `cs` (which must begin with a
digit): greedy `\d+` followed by an optional `\.\d+`. -/
def numberTokenAt (cs : List Char) : List Char :=
  let ds := cs.takeWhile (fun c => isDigitCh c)
  match cs.drop ds.length with
  | '.' :: rest =>
    let fs := rest.takeWhile (fun c => isDigitCh c)
    if fs.isEmpty then ds else ds ++ '.' :: fs
  | _ => ds

/-- `re.search(r'(\d+(?:\.\d+)?)', s)`: the first number token in `s`. -/
def searchNumber (s : String) : Option String :=
  let rec go : List Char → Option String
    | [] => none
    | c :: rest =>
      if isDigitCh c then some (String.mk (numberTokenAt (c :: rest)))
      else go rest
  go s.toList

/-- `re.match(r'^\d+(?:\.\d+)?$', s)`: `s` is exactly one number token. -/
def isFullNumeric (s : String) : Bool :=
  let cs := s.toList
  !cs.isEmpty && cs.head?.all (fun c => isDigitCh c) && numberTokenAt cs = cs

/-- `re.search(r'(\d+(?:\.\d+)?)/10', s)`: the first number token that is
immediately followed by the literal `/10` (the optional fractional part
backtracks when `/10` does not follow it, as in Python's engine). -/
def searchNumSlash10 (s : String) : Option String :=
  let slash10 : List Char := ['/', '1', '0']
  let rec go : List Char → Option String
    | [] => none
    | c :: rest =>
      if isDigitCh c then
        let ds := (c :: rest).takeWhile (fun x => isDigitCh x)
        let after := (c :: rest).drop ds.length
        let withFrac : Option (List Char) :=
          match after with
          | '.' :: r2 =>
            let fs := r2.takeWhile (fun x => isDigitCh x)
            if fs.isEmpty then none
            else if slash10.isPrefixOf (r2.drop fs.length) then
              some (ds ++ '.' :: fs)
            else none
          | _ => none
        match withFrac with
        | some tok => some (String.mk tok)
        | none =>
          if slash10.isPrefixOf after then some (String.mk ds)
          else go rest
      else go rest
  go s.toList

/-- `re.search(label + r':?\s*(\d+(?:\.\d+)?)', text)` (case sensitive), the
first-pass score scan of `parse_analysis`: returns the captured number at the
earliest position where the whole pattern matches. -/
def scanScore (label : String) (text : String) : Option String :=
  let lab := label.toList
  let rec go : List Char → Option String
    | [] => none
    | c :: rest =>
      (if lab.isPrefixOf (c :: rest) then
        let after := (c :: rest).drop lab.length
        let after := match after with
          | ':' :: r => r
          | r => r
        let after := after.dropWhile (fun x => isPySpace x)
        match after with
        | d :: _ => if isDigitCh d then some (String.mk (numberTokenAt after)) else none
        | [] => none
      else none).orElse (fun _ => go rest)
  go text.toList

/-! ## Whole-word search (`re.search(r'\b' + re.escape(pat) + r'\b', text)`) -/

/-- Word-ness of an optional character; string edges count as non-word. -/
def wordish : Option Char → Bool
  | none => false
  | some c => isWordCh c

/-- Whether the literal pattern `pat` matches at the very start of `cs`
with a `\b` boundary on both sides (`prev` is the character before `cs`). -/
def wholeWordAt (pat : List Char) (prev : Option Char) (cs : List Char) : Bool :=
  !pat.isEmpty && pat.isPrefixOf cs &&
    (wordish prev != wordish cs.head?) &&
    (wordish pat.getLast? != wordish (cs.drop pat.length).head?)

/-- `re.search(r'\b' + re.escape(pat) + r'\b', text) is not None`. -/
def wholeWordSearch (pat text : String) : Bool :=
  let p := pat.toList
  let rec go (prev : Option Char) : List Char → Bool
    | [] => wholeWordAt p prev []
    | c :: rest => wholeWordAt p prev (c :: rest) || go (some c) rest
  go none text.toList

/-! ## A small backtracking regex interpreter

Used for the LinkedIn / portfolio URL patterns and the phone-number
patterns of the source, which need genuine ordered-alternation /
greedy-with-backtracking semantics. Only the constructs those patterns
use are represented: character classes, sequencing, ordered alternation,
greedy star, and the `\b` word-boundary assertion. -/

inductive RE where
  | eps : RE
  | cls (p : Char → Bool) : RE
  | seq (a b : RE) : RE
  | alt (a b : RE) : RE
  | star (a : RE) : RE
  | bnd : RE

/-- Greedy optional `a?`. -/
def RE.quest (a : RE) : RE := .alt a .eps

/-- `a{n}` exact repetition. -/
def RE.repN (a : RE) : Nat → RE
  | 0 => .eps
  | n + 1 => .seq a (RE.repN a n)

/-- Up to `n` further greedy repetitions of `a` (used for `a{lo,hi}`
as `a.repN lo ++ a.upTo (hi-lo)`). -/
def RE.upTo (a : RE) : Nat → RE
  | 0 => .eps
  | n + 1 => .alt (.seq a (RE.upTo a n)) .eps

/-- The literal string `s` as a pattern. -/
def reStr (s : String) : RE :=
  s.toList.foldr (fun c r => RE.seq (.cls (fun x => x = c)) r) .eps

/-- Greedy `p+` over a character class. -/
def RE.plusCls (p : Char → Bool) : RE := .seq (.cls p) (.star (.cls p))

/-- Backtracking matcher: `reRun fuel r prev cs k` tries to match `r` at the
start of `cs` (with `prev` the character just before `cs`), calling the
continuation `k` on every candidate split in the engine's preference order
and returning its first non-`none` answer. `fuel` bounds star unfolding
(initialised to more than the input length; a star step must consume
at least one character, exactly as in Python's engine on these patterns). -/
def reRun : Nat → RE → Option Char → List Char →
    (Option Char → List Char → Option Nat) → Option Nat
  | 0, _, _, _, _ => none
  | _ + 1, .eps, prev, cs, k => k prev cs
  | _ + 1, .cls p, _, cs, k =>
    match cs with
    | [] => none
    | c :: rest => if p c then k (some c) rest else none
  | fuel + 1, .seq a b, prev, cs, k =>
    reRun fuel a prev cs (fun p' cs' => reRun fuel b p' cs' k)
  | fuel + 1, .alt a b, prev, cs, k =>
    (reRun fuel a prev cs k).orElse (fun _ => reRun fuel b prev cs k)
  | fuel + 1, .star a, prev, cs, k =>
    (reRun fuel a prev cs (fun p' cs' =>
      if cs'.length < cs.length then reRun fuel (.star a) p' cs' k else none)).orElse
      (fun _ => k prev cs)
  | _ + 1, .bnd, prev, cs, k =>
    if wordish prev != wordish cs.head? then k prev cs else none

/-- A size bound used to provision the matcher's fuel: nested calls consume
one fuel unit per pattern node and per star unfolding, so
`(size + 1) * (input length + 2)` always suffices for these patterns. -/
def RE.size : RE → Nat
  | .eps => 1
  | .cls _ => 1
  | .seq a b => a.size + b.size + 1
  | .alt a b => a.size + b.size + 1
  | .star a => a.size + 1
  | .bnd => 1

/-- `re.search(r, text)` on a character list: the `(start, length)` span of
the leftmost match (earliest start; at a given start, the engine's first
successful alternative). -/
def reSearchSpan (r : RE) (cs : List Char) : Option (Nat × Nat) :=
  let rec go (pos : Nat) (prev : Option Char) (s : List Char) : Option (Nat × Nat) :=
    match reRun ((r.size + 1) * (s.length + 2)) r prev s (fun _ rest => some rest.length) with
    | some restLen => some (pos, s.length - restLen)
    | none =>
      match s with
      | [] => none
      | c :: rest => go (pos + 1) (some c) rest
  go 0 none cs

/-- `re.search(r, text)`, returning the matched substring of `text`. -/
def reSearchStr (r : RE) (text : String) : Option String :=
  (reSearchSpan r text.toList).map (fun span =>
    String.mk ((text.toList.drop span.1).take span.2))

/-- Case-insensitive `re.search` (match on the lowered text, return the
span of the original text, as `re.IGNORECASE` does). -/
def reSearchStrCI (r : RE) (text : String) : Option String :=
  (reSearchSpan r (pyLower text).toList).map (fun span =>
    String.mk ((text.toList.drop span.1).take span.2))

/-! ## Concrete regex patterns from the source -/

/-- `[\w-]` — word characters or hyphen (LinkedIn path segments). -/
def wdash (c : Char) : Bool := isWordCh c || c = '-'

/-- `(?:/[\w-]+)*` — trailing LinkedIn path segments. -/
def rePathSegs : RE := .star (.seq (reStr "/") (RE.plusCls wdash))

/-- `https?://(?:www\.)?linkedin\.com/in/[\w-]+(?:/[\w-]+)*`. -/
def reLinkedin1 : RE :=
  .seq (reStr "http") (.seq (RE.quest (reStr "s")) (.seq (reStr "://")
    (.seq (RE.quest (reStr "www.")) (.seq (reStr "linkedin.com/in/")
      (.seq (RE.plusCls wdash) rePathSegs)))))

/-- `linkedin\.com/in/[\w-]+(?:/[\w-]+)*`. -/
def reLinkedin2 : RE :=
  .seq (reStr "linkedin.com/in/") (.seq (RE.plusCls wdash) rePathSegs)

/-- `www\.linkedin\.com/in/[\w-]+(?:/[\w-]+)*`. -/
def reLinkedin3 : RE :=
  .seq (reStr "www.linkedin.com/in/") (.seq (RE.plusCls wdash) rePathSegs)

/-- `linkedin:\s*https?://(?:www\.)?linkedin\.com/in/[\w-]+`. -/
def reLinkedin4 : RE :=
  .seq (reStr "linkedin:") (.seq (.star (.cls isPySpace))
    (.seq (reStr "http") (.seq (RE.quest (reStr "s")) (.seq (reStr "://")
      (.seq (RE.quest (reStr "www.")) (.seq (reStr "linkedin.com/in/")
        (RE.plusCls wdash)))))))

/-- The trailing-punctuation stripper `re.sub(r'[.,;:)\s]+$', '', url)`. -/
def stripUrlTail (s : String) : String :=
  stripTrailing (fun c => c = '.' || c = ',' || c = ';' || c = ':' || c = ')' || isPySpace c) s

/-- The `linkedin[\s:]*([^\s]+)` capture: after a (case-insensitive)
occurrence of `linkedin`, skip the greedy `[\s:]*` run and capture the
following maximal non-space run; when the string ends inside the run, the
engine backtracks into the run and captures from its last `':'`. Returns
`none` when no occurrence of `linkedin` admits a non-empty capture. -/
def linkedinMention (text : String) : Option String :=
  let lab := "linkedin".toList
  let rec go : List Char → Option String
    | [] => none
    | c :: rest =>
      (if lab.isPrefixOf ((c :: rest).map Char.toLower) then
        let after := (c :: rest).drop lab.length
        let run := after.takeWhile (fun x => isPySpace x || x = ':')
        let tailCs := after.drop run.length
        match tailCs with
        | t :: ts => some (String.mk ((t :: ts).takeWhile (fun x => !isPySpace x)))
        | [] =>
          let backAt := (run.reverse.takeWhile (fun x => isPySpace x)).length
          if backAt < run.length then
            -- the last non-space character of the run is a ':'
            some (String.mk ((run.drop (run.length - backAt - 1)).takeWhile
              (fun x => !isPySpace x)))
          else none
      else none).orElse (fun _ => go rest)
  go text.toList

/-- `extract_linkedin_url` from the source: four prioritised URL patterns
(case-insensitive), normalisation of scheme/`www.` prefixes, trailing
punctuation stripping, then the generic `linkedin` keyword-proximity
fallback; `""` when nothing matches. -/
def extract_linkedin_url (text : String) : String :=
  if text = "" then ""
  else
    let found := (reSearchStrCI reLinkedin1 text).orElse (fun _ =>
      (reSearchStrCI reLinkedin2 text).orElse (fun _ =>
        (reSearchStrCI reLinkedin3 text).orElse (fun _ =>
          reSearchStrCI reLinkedin4 text)))
    match found with
    | some url =>
      let url :=
        if !pyStartsWith url "http" then
          let url := "https://" ++
            (if pyStartsWith url "www." || pyStartsWith url "linkedin.com" then "" else "www.") ++ url
          if pyStartsWith url "https://linkedin.com" then
            pyReplace url "https://linkedin.com" "https://www.linkedin.com"
          else url
        else url
      stripUrlTail url
    | none =>
      match linkedinMention text with
      | some potentialUrl =>
        if substrOf "." potentialUrl && substrOf "/" potentialUrl then
          let url := stripUrlTail potentialUrl
          if !pyStartsWith url "http" then
            "https://" ++ (if pyStartsWith url "www." then "" else "www.") ++ url
          else url
        else ""
      | none => ""

/-- `https?://(?:www\.)?(?:github\.com|gitlab\.com|bitbucket\.org|behance\.net|dribbble\.com|[\w-]+\.(?:com|io|org|net))/\S+`. -/
def rePortfolio : RE :=
  let tld : RE := .alt (reStr "com") (.alt (reStr "io") (.alt (reStr "org") (reStr "net")))
  let generic : RE := .seq (RE.plusCls wdash) (.seq (reStr ".") tld)
  let domain : RE :=
    .alt (reStr "github.com") (.alt (reStr "gitlab.com") (.alt (reStr "bitbucket.org")
      (.alt (reStr "behance.net") (.alt (reStr "dribbble.com") generic))))
  .seq (reStr "http") (.seq (RE.quest (reStr "s")) (.seq (reStr "://")
    (.seq (RE.quest (reStr "www."))
      (.seq domain (.seq (reStr "/") (RE.plusCls (fun c => !isPySpace c)))))))

/-- Phone separator class `[-.\s]`. -/
def phoneSep (c : Char) : Bool := c = '-' || c = '.' || isPySpace c

/-- `\b(?:\+\d{1,3}[-.\s]?)?\(?\d{3}\)?[-.\s]?\d{3}[-.\s]?\d{4}\b`. -/
def rePhone1 : RE :=
  .seq .bnd (.seq
    (RE.quest (.seq (reStr "+") (.seq (.seq (.cls isDigitCh) (RE.upTo (.cls isDigitCh) 2))
      (RE.quest (.cls phoneSep)))))
    (.seq (RE.quest (reStr "(")) (.seq (RE.repN (.cls isDigitCh) 3)
      (.seq (RE.quest (reStr ")")) (.seq (RE.quest (.cls phoneSep))
        (.seq (RE.repN (.cls isDigitCh) 3) (.seq (RE.quest (.cls phoneSep))
          (.seq (RE.repN (.cls isDigitCh) 4) .bnd))))))))

/-- `\b\d{10}\b`. -/
def rePhone2 : RE := .seq .bnd (.seq (RE.repN (.cls isDigitCh) 10) .bnd)

/-- `\b\d{3}[-.\s]\d{3}[-.\s]\d{4}\b`. -/
def rePhone3 : RE :=
  .seq .bnd (.seq (RE.repN (.cls isDigitCh) 3) (.seq (.cls phoneSep)
    (.seq (RE.repN (.cls isDigitCh) 3) (.seq (.cls phoneSep)
      (.seq (RE.repN (.cls isDigitCh) 4) .bnd)))))

/-- `\b\+\d{1,3}\s?\d{6,14}\b`. -/
def rePhone4 : RE :=
  .seq .bnd (.seq (reStr "+") (.seq (.seq (.cls isDigitCh) (RE.upTo (.cls isDigitCh) 2))
    (.seq (RE.quest (.cls isPySpace))
      (.seq (RE.repN (.cls isDigitCh) 6) (.seq (RE.upTo (.cls isDigitCh) 8) .bnd)))))

/-- `extract_phone_number` from the source: four prioritised patterns over
the raw résumé text, first successful pattern wins, default `"Not Available"`. -/
def extract_phone_number (text : String) : String :=
  if text = "" then "Not Available"
  else
    match (reSearchStr rePhone1 text).orElse (fun _ =>
      (reSearchStr rePhone2 text).orElse (fun _ =>
        (reSearchStr rePhone3 text).orElse (fun _ =>
          reSearchStr rePhone4 text))) with
    | some m => m
    | none => "Not Available"

/-! ## `clean_text` (markdown stripping) -/

/-- One `re.sub(d + '(.*?)' + d, r'\1', text)` pass for a delimiter `d`:
scan left to right; at an occurrence of `d`, look for the next occurrence of
`d` with no newline in between (`.` does not match `\n`); when found, drop
both delimiters and continue after the closing one. -/
def subDelim (d : List Char) (s : String) : String :=
  let rec findClose (fuel : Nat) (acc : List Char) (cs : List Char) :
      Option (List Char × List Char) :=
    match fuel, cs with
    | 0, _ => none
    | _, [] => none
    | fuel + 1, c :: rest =>
      if d.isPrefixOf (c :: rest) then some (acc.reverse, (c :: rest).drop d.length)
      else if c = '\n' then none
      else findClose fuel (c :: acc) rest
  let rec go (fuel : Nat) (cs : List Char) : List Char :=
    match fuel, cs with
    | 0, cs => cs
    | _, [] => []
    | fuel + 1, c :: rest =>
      if d.isPrefixOf (c :: rest) then
        match findClose (rest.length + 1) [] ((c :: rest).drop d.length) with
        | some (inner, after) => inner ++ go fuel after
        | none => c :: go fuel rest
      else c :: go fuel rest
  String.mk (go (s.toList.length + 1) s.toList)

/-- One `re.sub(pattern, '', text, flags=re.MULTILINE)` pass for the
bullet-prefix pattern `^\s*[-•*]\s+`: at each line start, a greedy
whitespace run (which may span newlines), a bullet character, then at
least one whitespace character, all removed. -/
def subBullets (s : String) : String :=
  let isBullet (c : Char) : Bool := c = '-' || c = '•' || c = '*'
  let rec go (fuel : Nat) (atLineStart : Bool) (cs : List Char) : List Char :=
    match fuel, cs with
    | 0, cs => cs
    | _, [] => []
    | fuel + 1, c :: rest =>
      (if atLineStart then
        let ws := (c :: rest).takeWhile (fun x => isPySpace x)
        match (c :: rest).drop ws.length with
        | b :: afterB =>
          if isBullet b then
            let ws2 := afterB.takeWhile (fun x => isPySpace x)
            if ws2.isEmpty then none
            else some (go fuel (ws2.getLast? = some '\n') (afterB.drop ws2.length))
          else none
        | [] => none
      else none).getD (c :: go fuel (c = '\n') rest)
  String.mk (go (s.toList.length + 1) true s.toList)

/-- One `re.sub(r'^\s*\d+\.\s+', '', text, flags=re.MULTILINE)` pass:
numbered-list prefixes at line starts removed. -/
def subNumbering (s : String) : String :=
  let rec go (fuel : Nat) (atLineStart : Bool) (cs : List Char) : List Char :=
    match fuel, cs with
    | 0, cs => cs
    | _, [] => []
    | fuel + 1, c :: rest =>
      (if atLineStart then
        let ws := (c :: rest).takeWhile (fun x => isPySpace x)
        let afterWs := (c :: rest).drop ws.length
        let ds := afterWs.takeWhile (fun x => isDigitCh x)
        if ds.isEmpty then none
        else
          match afterWs.drop ds.length with
          | '.' :: afterDot =>
            let ws2 := afterDot.takeWhile (fun x => isPySpace x)
            if ws2.isEmpty then none
            else some (go fuel (ws2.getLast? = some '\n') (afterDot.drop ws2.length))
          | _ => none
      else none).getD (c :: go fuel (c = '\n') rest)
  String.mk (go (s.toList.length + 1) true s.toList)

/-- `clean_text` from the source: strips `**bold**`, `*italic*`,
`__underline__`, `_italic_`, backtick code spans, bullet and numbered list
prefixes, then whitespace at both ends; `""` and `"Not Available"` are
returned unchanged. -/
def clean_text (text : String) : String :=
  if text = "" || text = "Not Available" then text
  else
    let t := subDelim ['*', '*'] text
    let t := subDelim ['*'] t
    let t := subDelim ['_', '_'] t
    let t := subDelim ['_'] t
    let t := subDelim [Char.ofNat 96] t
    let t := subBullets t
    let t := subNumbering t
    pyStrip t

/-! ## Static configuration data -/

/-- `get_planful_competitors` from the source. -/
def get_planful_competitors : List String :=
  ["Anaplan", "Workday Adaptive Planning", "Oracle EPM", "Oracle Hyperion",
   "SAP BPC", "IBM Planning Analytics", "TM1", "Prophix", "Vena Solutions",
   "Jedox", "OneStream", "Board", "Centage", "Solver", "Kepion", "Host Analytics",
   "CCH Tagetik", "Infor CPM", "Syntellis", "Longview"]

/-- `common_skills` from `calculate_skills_scores`. -/
def common_skills : List String :=
  ["python", "java", "javascript", "c++", "c#", ".net", "php", "ruby", "swift",
   "sql", "mysql", "postgresql", "mongodb", "oracle", "database",
   "aws", "azure", "gcp", "cloud", "docker", "kubernetes", "devops",
   "html", "css", "react", "angular", "vue", "node.js", "django",
   "machine learning", "ai", "data science", "tensorflow", "pytorch",
   "excel", "powerbi", "tableau", "power bi", "data visualization",
   "agile", "scrum", "jira", "project management", "pmp",
   "linux", "unix", "windows", "git", "github", "gitlab",
   "api", "rest", "graphql", "microservices", "serverless",
   "financial analysis", "budgeting", "forecasting", "accounting",
   "strategic planning", "business development", "marketing", "sales",
   "customer relationship management", "crm", "sap", "erp",
   "communication", "leadership", "teamwork", "problem solving",
   "critical thinking", "time management", "organization"]

/-- `related_skills` from `calculate_skills_scores`
(`related_skills.get(k, [])` semantics: unknown keys map to `[]`). -/
def related_skills (s : String) : List String :=
  if s = "python" then ["django", "flask", "pandas", "numpy", "data science", "machine learning", "AI"]
  else if s = "java" then ["spring", "hibernate", "j2ee", "android"]
  else if s = "javascript" then ["typescript", "node.js", "react", "angular", "vue", "front-end"]
  else if s = "sql" then ["mysql", "postgresql", "oracle", "database", "data analysis"]
  else if s = "aws" then ["cloud", "azure", "gcp", "devops", "infrastructure"]
  else if s = "docker" then ["kubernetes", "containers", "devops", "microservices"]
  else if s = "tableau" then ["power bi", "data visualization", "analytics", "reporting"]
  else if s = "excel" then ["spreadsheets", "data analysis", "financial modeling"]
  else if s = "agile" then ["scrum", "kanban", "jira", "project management"]
  else if s = "machine learning" then ["ai", "data science", "deep learning", "nlp"]
  else []

/-! ## The record of extracted fields (`result` dict of `parse_analysis`) -/

/-- The sentinel used for absent fields. -/
def notAvailable : String := "Not Available"

/-- The 22 canonical fields of `expected_fields` in `parse_analysis`,
in their (insertion-order) dictionary order. -/
inductive FieldId where
  | candidateName | totalExperience | relevancyScore
  | strongMatchesScore | strongMatchesReasoning
  | partialMatchesScore | partialMatchesReasoning
  | allTechSkills | relevantTechSkills
  | degree | collegeUniversity | jobApplyingFor | collegeRating
  | jobStability | latestCompany | leadershipSkills
  | internationalExperience | noticePeriod | linkedinURL | portfolioURL
  | workHistory | competitorExperience
deriving DecidableEq

/-- The dictionary order of `expected_fields`. -/
def fieldOrder : List FieldId :=
  [.candidateName, .totalExperience, .relevancyScore,
   .strongMatchesScore, .strongMatchesReasoning,
   .partialMatchesScore, .partialMatchesReasoning,
   .allTechSkills, .relevantTechSkills,
   .degree, .collegeUniversity, .jobApplyingFor, .collegeRating,
   .jobStability, .latestCompany, .leadershipSkills,
   .internationalExperience, .noticePeriod, .linkedinURL, .portfolioURL,
   .workHistory, .competitorExperience]

/-- The recognised label variants of each field (`expected_fields` values). -/
def fieldAliases : FieldId → List String
  | .candidateName => ["candidate name", "candidate's name", "name"]
  | .totalExperience => ["total experience (years)", "total experience", "experience (years)", "years of experience"]
  | .relevancyScore => ["relevancy score (0-100)", "relevancy score", "relevance score"]
  | .strongMatchesScore => ["strong matches score", "strong match score", "strong matches"]
  | .strongMatchesReasoning => ["strong matches reasoning", "strong match reasoning"]
  | .partialMatchesScore => ["partial matches score", "partial match score", "partial matches"]
  | .partialMatchesReasoning => ["partial matches reasoning", "partial match reasoning"]
  | .allTechSkills => ["all tech skills", "all technical skills"]
  | .relevantTechSkills => ["relevant tech skills", "relevant technical skills"]
  | .degree => ["degree", "highest degree", "qualification"]
  | .collegeUniversity => ["college/university", "university", "college", "institution"]
  | .jobApplyingFor => ["job applying for", "job id", "position applying for", "role applying for"]
  | .collegeRating => ["college rating", "university rating", "institution rating"]
  | .jobStability => ["job stability", "employment stability"]
  | .latestCompany => ["latest company", "current company", "most recent company"]
  | .leadershipSkills => ["leadership skills", "leadership experience", "leadership"]
  | .internationalExperience => ["international team experience", "global team experience", "international experience"]
  | .noticePeriod => ["notice period", "joining availability", "availability to join"]
  | .linkedinURL => ["linkedin url", "linkedin profile", "linkedin", "linkedin link"]
  | .portfolioURL => ["portfolio url", "portfolio", "github url", "github", "personal website", "personal url", "website"]
  | .workHistory => ["work history", "employment history", "companies worked for", "previous companies"]
  | .competitorExperience => ["competitor experience", "worked for competitor", "competitor", "competition experience"]

/-- Every alias of every field (the flattened list used by the
continuation-line check of the second pass). -/
def allAliases : List String :=
  (fieldOrder.map fieldAliases).flatten

/-- The `result` dictionary of `parse_analysis`: one string value per
canonical field. -/
structure Record where
  candidateName : String
  totalExperience : String
  relevancyScore : String
  strongMatchesScore : String
  strongMatchesReasoning : String
  partialMatchesScore : String
  partialMatchesReasoning : String
  allTechSkills : String
  relevantTechSkills : String
  degree : String
  collegeUniversity : String
  jobApplyingFor : String
  collegeRating : String
  jobStability : String
  latestCompany : String
  leadershipSkills : String
  internationalExperience : String
  noticePeriod : String
  linkedinURL : String
  portfolioURL : String
  workHistory : String
  competitorExperience : String
deriving DecidableEq

/-- Field lookup, `result[field]`. -/
def Record.get : Record → FieldId → String
  | r, .candidateName => r.candidateName
  | r, .totalExperience => r.totalExperience
  | r, .relevancyScore => r.relevancyScore
  | r, .strongMatchesScore => r.strongMatchesScore
  | r, .strongMatchesReasoning => r.strongMatchesReasoning
  | r, .partialMatchesScore => r.partialMatchesScore
  | r, .partialMatchesReasoning => r.partialMatchesReasoning
  | r, .allTechSkills => r.allTechSkills
  | r, .relevantTechSkills => r.relevantTechSkills
  | r, .degree => r.degree
  | r, .collegeUniversity => r.collegeUniversity
  | r, .jobApplyingFor => r.jobApplyingFor
  | r, .collegeRating => r.collegeRating
  | r, .jobStability => r.jobStability
  | r, .latestCompany => r.latestCompany
  | r, .leadershipSkills => r.leadershipSkills
  | r, .internationalExperience => r.internationalExperience
  | r, .noticePeriod => r.noticePeriod
  | r, .linkedinURL => r.linkedinURL
  | r, .portfolioURL => r.portfolioURL
  | r, .workHistory => r.workHistory
  | r, .competitorExperience => r.competitorExperience

/-- Field assignment, `result[field] = v`. -/
def Record.set (r : Record) (f : FieldId) (v : String) : Record :=
  match f with
  | .candidateName => { r with candidateName := v }
  | .totalExperience => { r with totalExperience := v }
  | .relevancyScore => { r with relevancyScore := v }
  | .strongMatchesScore => { r with strongMatchesScore := v }
  | .strongMatchesReasoning => { r with strongMatchesReasoning := v }
  | .partialMatchesScore => { r with partialMatchesScore := v }
  | .partialMatchesReasoning => { r with partialMatchesReasoning := v }
  | .allTechSkills => { r with allTechSkills := v }
  | .relevantTechSkills => { r with relevantTechSkills := v }
  | .degree => { r with degree := v }
  | .collegeUniversity => { r with collegeUniversity := v }
  | .jobApplyingFor => { r with jobApplyingFor := v }
  | .collegeRating => { r with collegeRating := v }
  | .jobStability => { r with jobStability := v }
  | .latestCompany => { r with latestCompany := v }
  | .leadershipSkills => { r with leadershipSkills := v }
  | .internationalExperience => { r with internationalExperience := v }
  | .noticePeriod => { r with noticePeriod := v }
  | .linkedinURL => { r with linkedinURL := v }
  | .portfolioURL => { r with portfolioURL := v }
  | .workHistory => { r with workHistory := v }
  | .competitorExperience => { r with competitorExperience := v }

/-- `result = {field: "Not Available" for field in expected_fields}`. -/
def initRecord : Record :=
  { candidateName := notAvailable, totalExperience := notAvailable,
    relevancyScore := notAvailable, strongMatchesScore := notAvailable,
    strongMatchesReasoning := notAvailable, partialMatchesScore := notAvailable,
    partialMatchesReasoning := notAvailable, allTechSkills := notAvailable,
    relevantTechSkills := notAvailable, degree := notAvailable,
    collegeUniversity := notAvailable, jobApplyingFor := notAvailable,
    collegeRating := notAvailable, jobStability := notAvailable,
    latestCompany := notAvailable, leadershipSkills := notAvailable,
    internationalExperience := notAvailable, noticePeriod := notAvailable,
    linkedinURL := notAvailable, portfolioURL := notAvailable,
    workHistory := notAvailable, competitorExperience := notAvailable }

/-- `for field in result: result[field] = g(result[field])` — the
`clean_text` loop applies a function to every field. -/
def Record.mapFields (g : String → String) (r : Record) : Record :=
  { candidateName := g r.candidateName, totalExperience := g r.totalExperience,
    relevancyScore := g r.relevancyScore, strongMatchesScore := g r.strongMatchesScore,
    strongMatchesReasoning := g r.strongMatchesReasoning,
    partialMatchesScore := g r.partialMatchesScore,
    partialMatchesReasoning := g r.partialMatchesReasoning,
    allTechSkills := g r.allTechSkills, relevantTechSkills := g r.relevantTechSkills,
    degree := g r.degree, collegeUniversity := g r.collegeUniversity,
    jobApplyingFor := g r.jobApplyingFor, collegeRating := g r.collegeRating,
    jobStability := g r.jobStability, latestCompany := g r.latestCompany,
    leadershipSkills := g r.leadershipSkills,
    internationalExperience := g r.internationalExperience,
    noticePeriod := g r.noticePeriod, linkedinURL := g r.linkedinURL,
    portfolioURL := g r.portfolioURL, workHistory := g r.workHistory,
    competitorExperience := g r.competitorExperience }

/-! ## `check_competitor_experience` -/

/-- `check_competitor_experience` from the source: scan `work_history` for a
case-insensitive whole-word competitor mention; first competitor in the fixed
list wins; `""` for empty/sentinel work history or when none match. -/
def check_competitor_experience (workHistory : String) (competitorList : List String) : String :=
  if workHistory = "" || workHistory = notAvailable then ""
  else
    match competitorList.find? (fun comp =>
        wholeWordSearch (pyLower comp) (pyLower workHistory)) with
    | some comp => "Yes - " ++ comp
    | none => ""

/-! ## `calculate_skills_scores` (the Fallback Skill Matcher) -/

/-- The job-description skills: vocabulary entries whole-word matched in the
lowered job description. -/
def jdSkillsList (jd : String) : List String :=
  common_skills.filter (fun sk => wholeWordSearch sk (pyLower jd))

/-- The exact matches: job-description skills also whole-word matched in the
lowered résumé. -/
def exactMatchesList (resume jd : String) : List String :=
  (jdSkillsList jd).filter (fun sk => wholeWordSearch sk (pyLower resume))

/-- The related matches, in build order: first, for every
not-exactly-matched job-description skill, its related skills found in the
résumé (`"<rel> (related to <skill>)"`, skipping relateds that lower-case
equal an exact match); then, for every vocabulary skill outside the
job-description list that appears in the résumé, each job-description skill
it is related to (`"<skill> (transferable to <jd_skill>)"`, deduplicated). -/
def relatedMatchesList (resume jd : String) : List String :=
  let resumeLower := pyLower resume
  let jdSkills := jdSkillsList jd
  let exact := exactMatchesList resume jd
  let part1 : List String :=
    jdSkills.foldl (fun acc jdSkill =>
      if exact.contains jdSkill then acc
      else
        acc ++ ((related_skills jdSkill).filter (fun rel =>
            wholeWordSearch (pyLower rel) resumeLower &&
              !(exact.map pyLower).contains (pyLower rel))).map
          (fun rel => rel ++ " (related to " ++ jdSkill ++ ")")) []
  common_skills.foldl (fun acc sk =>
    if !jdSkills.contains sk && wholeWordSearch sk resumeLower then
      jdSkills.foldl (fun acc jdSkill =>
        if (related_skills jdSkill).contains sk || (related_skills sk).contains jdSkill then
          let m := sk ++ " (transferable to " ++ jdSkill ++ ")"
          if acc.contains m then acc else acc ++ [m]
        else acc) acc
    else acc) part1

/-- The number of job-description skills with no exact match
(`missing_skills_count`). -/
def missingCount (resume jd : String) : ℕ :=
  (jdSkillsList jd).length - (exactMatchesList resume jd).length

/-- The unrounded strong score: exact-match ratio × 100, or the neutral 50
when no skills were found in the job description. -/
def strongScoreQ (resume jd : String) : ℚ :=
  if jdSkillsList jd = [] then 50
  else ((exactMatchesList resume jd).length : ℚ) / ((jdSkillsList jd).length : ℚ) * 100

/-- `max_related_score = min(80, strong_score + 20)`. -/
def maxRelatedQ (resume jd : String) : ℚ :=
  min 80 (strongScoreQ resume jd + 20)

/-- `min_related_score = max(30, strong_score * 0.6)`. -/
def minRelatedQ (resume jd : String) : ℚ :=
  max 30 (strongScoreQ resume jd * 0.6)

/-- The unrounded partial score of the fallback matcher. -/
def partialScoreQ (resume jd : String) : ℚ :=
  if relatedMatchesList resume jd ≠ [] then
    if 0 < missingCount resume jd then
      minRelatedQ resume jd + (maxRelatedQ resume jd - minRelatedQ resume jd) *
        min 1 (((relatedMatchesList resume jd).length : ℚ) / (missingCount resume jd : ℚ))
    else maxRelatedQ resume jd
  else minRelatedQ resume jd

/-- The strong-score reasoning text of the fallback matcher. -/
def strongReasoningText (resume jd : String) : String :=
  let jdSkills := jdSkillsList jd
  let exact := exactMatchesList resume jd
  if jdSkills = [] then
    "No specific technical skills identified in the job description. Using default middle score."
  else
    "Found " ++ toString exact.length ++ " exact matches out of " ++
      toString jdSkills.length ++ " required skills (" ++
      fmtFixed1 (strongScoreQ resume jd) ++ "%).\n\n" ++
    "Exact skill matches:\n" ++
    (if exact ≠ [] then
      String.join (exact.map (fun sk =>
        "- " ++ pyUpper sk ++ ": Found in both resume and job description\n"))
    else "- No exact skill matches found\n") ++
    "\nMissing skills from job description:\n" ++
    String.join ((jdSkills.filter (fun sk => !exact.contains sk)).map
      (fun sk => "- " ++ sk ++ "\n"))

/-- The partial-score reasoning text of the fallback matcher. -/
def partialReasoningText (resume jd : String) : String :=
  let related := relatedMatchesList resume jd
  "Found " ++ toString related.length ++ " related/transferable skills (" ++
    fmtFixed1 (partialScoreQ resume jd) ++ "%).\n\n" ++
  "Related skill matches:\n" ++
  (if related ≠ [] then String.join (related.map (fun sk => "- " ++ sk ++ "\n"))
   else "- No related skill matches found\n")

/-- `calculate_skills_scores(resume_text, job_description)` from the source:
`(round(strong_score), round(partial_score), strong_reasoning,
partial_reasoning)`. -/
def calculate_skills_scores (resume jd : String) : ℤ × ℤ × String × String :=
  (pythonRoundInt (strongScoreQ resume jd), pythonRoundInt (partialScoreQ resume jd),
   strongReasoningText resume jd, partialReasoningText resume jd)

/-! ## `calculate_scores` (the Scoring Engine) -/

/-- The component scores dictionary of `calculate_scores`. -/
structure Scores where
  strongMatches : ℚ
  partialMatches : ℚ
  relevancy : ℚ
  experience : ℚ
  stability : ℚ
  college : ℚ
  leadership : ℚ
  international : ℚ
  competitor : ℚ
deriving DecidableEq

/-- `float(parsed_data.get("Strong Matches Score", "0"))`, defaulting to 0 on
coercion failure. -/
def strongMatchesOf (r : Record) : ℚ :=
  (parsePyFloat r.strongMatchesScore).getD 0

/-- `float(parsed_data.get("Partial Matches Score", "0"))`, defaulting to 0. -/
def partialMatchesOf (r : Record) : ℚ :=
  (parsePyFloat r.partialMatchesScore).getD 0

/-- `scores["relevancy"] = min(strong*0.7 + partial*0.3, 100)`. -/
def relevancyOf (r : Record) : ℚ :=
  min (strongMatchesOf r * 0.7 + partialMatchesOf r * 0.3) 100

/-- `str(round(scores["relevancy"], 1))` — the value written back into
`parsed_data["Relevancy Score (0-100)"]`. -/
def relevancyStr (r : Record) : String :=
  fmtRound1 (relevancyOf r)

/-- The experience component: proportional up to 70 below the required
years, 80 at them, 80 plus a capped bonus above them; 0 on coercion failure. -/
def experienceScore (requiredExperience : ℚ) (v : Option ℚ) : ℚ :=
  match v with
  | none => 0
  | some candidateExp =>
    if candidateExp < requiredExperience then
      min (candidateExp / requiredExperience * 70) 70
    else if candidateExp = requiredExperience then 80
    else 80 + min ((candidateExp - requiredExperience) / 2 * 20) 20

/-- The stability component of `calculate_scores`: a 1-10 rating is scaled
by 10; larger values are read as average years and mapped through the
three-segment curve. -/
def stabilityScore (jobStability : ℚ) : ℚ :=
  if jobStability ≤ 10 then jobStability * 10
  else
    if jobStability < 1 then jobStability * 50
    else if jobStability < 2 then 50 + (jobStability - 1) * 35
    else 85 + min ((jobStability - 2) * 7.5) 15

/-- The college component of `calculate_scores`. -/
def collegeScore (collegeRating : String) : ℚ :=
  if collegeRating ≠ "" then
    if substrOf "premium" (pyLower collegeRating) &&
        !substrOf "non" (pyLower collegeRating) then 100
    else if substrOf "non-premium" (pyLower collegeRating) then 70
    else 40
  else 20

/-- The primary leadership keywords. -/
def leadershipKeywords : List String :=
  ["led", "managed", "directed", "leadership", "head", "team lead",
   "supervisor", "manager", "chief", "director", "lead"]

/-- The secondary leadership keywords. -/
def partialLeadershipKeywords : List String :=
  ["coordinated", "facilitated", "organized", "spearheaded", "guided"]

/-- The leadership component of `calculate_scores` (substring checks on the
lowered field). -/
def leadershipScore (leadershipSkills : String) : ℚ :=
  if leadershipSkills ≠ "" then
    if leadershipKeywords.any (fun w => substrOf w (pyLower leadershipSkills)) then 100
    else if partialLeadershipKeywords.any (fun w => substrOf w (pyLower leadershipSkills)) then 50
    else 0
  else 0

/-- The international-experience keywords. -/
def internationalKeywords : List String :=
  ["yes", "international", "global", "worldwide", "multinational",
   "cross-border", "overseas", "remote teams", "offshore"]

/-- The deep international-experience phrases. -/
def deepIntlPhrases : List String :=
  ["led international", "managed global", "cross-cultural", "multiple countries"]

/-- The international component of `calculate_scores`. -/
def internationalScore (internationalExp : String) : ℚ :=
  if internationalExp ≠ "" then
    if internationalKeywords.any (fun w => substrOf w (pyLower internationalExp)) then
      if deepIntlPhrases.any (fun w => substrOf w (pyLower internationalExp)) then 100
      else 80
    else 0
  else 0

/-- The premium competitor names checked by `calculate_scores`. -/
def premiumCompetitors : List String :=
  ["anaplan", "workday", "oracle", "sap", "onestream"]

/-- The competitor component of `calculate_scores`. -/
def competitorScore (competitorExp : String) : ℚ :=
  if competitorExp ≠ "" && pyStartsWith (pyLower competitorExp) "yes" then
    if premiumCompetitors.any (fun c => substrOf c (pyLower competitorExp)) then 100
    else 70
  else 0

/-- The weighted overall score of `calculate_scores`
(weights 0.40 / 0.15 / 0.12 / 0.10 / 0.10 / 0.08 / 0.05). -/
def overallScore (s : Scores) : ℚ :=
  0.40 * s.relevancy + 0.15 * s.experience + 0.12 * s.stability +
    0.10 * s.college + 0.10 * s.leadership + 0.08 * s.international +
    0.05 * s.competitor

def strongFitLabel : String := "Strong Fit ✅ - Priority interview"
def goodFitLabel : String := "Good Fit ✅ - Recommend interview"
def considerLabel : String := "Consider 🤔 - Further screening needed"
def weakFitLabel : String := "Weak Fit ⚠️ - Only interview if candidate pool is limited"
def rejectLabel : String := "Reject ❌ - Does not meet minimum criteria"

/-- The recommendation bands of `calculate_scores`. -/
def recommend (overall : ℚ) : String :=
  if 85 ≤ overall then strongFitLabel
  else if 70 ≤ overall then goodFitLabel
  else if 55 ≤ overall then considerLabel
  else if 40 ≤ overall then weakFitLabel
  else rejectLabel

/-- `calculate_scores(parsed_data, required_experience=3, stability_threshold=2)`
from the source. Returns the updated record (the source mutates
`parsed_data["Relevancy Score (0-100)"]` in place — this is its only write
to the record), the overall score, the recommendation, and the component
scores. `stability_threshold` is accepted and unused, as in the source. -/
def calculate_scores (r : Record) (requiredExperience : ℚ)
    (stabilityThreshold : ℚ) : Record × ℚ × String × Scores :=
  let _ := stabilityThreshold
  let s : Scores :=
    { strongMatches := strongMatchesOf r
      partialMatches := partialMatchesOf r
      relevancy := relevancyOf r
      experience := experienceScore requiredExperience (parsePyFloat r.totalExperience)
      stability := match parsePyFloat r.jobStability with
        | none => 0
        | some v => stabilityScore v
      college := collegeScore r.collegeRating
      leadership := leadershipScore r.leadershipSkills
      international := internationalScore r.internationalExperience
      competitor := competitorScore r.competitorExperience }
  let r' : Record := { r with relevancyScore := relevancyStr r }
  (r', overallScore s, recommend (overallScore s), s)

/-! ## The passes of `parse_analysis` -/

/-- First pass: `re.search(r'Strong Matches Score:?\s*(\d+(?:\.\d+)?)', analysis)`
and the same for `Partial Matches Score`, written into the record when found. -/
def firstPass (analysis : String) (r : Record) : Record :=
  let r := match scanScore "Strong Matches Score" analysis with
    | some v => { r with strongMatchesScore := v }
    | none => r
  match scanScore "Partial Matches Score" analysis with
  | some v => { r with partialMatchesScore := v }
  | none => r

/-- The loop state of the second pass: the active field and its
accumulating value buffer. -/
structure PassState where
  currentField : Option FieldId
  buf : List String
  acc : Record

/-- Python truthiness of `current_field and current_value`. -/
def PassState.flushable (st : PassState) : Bool :=
  st.currentField.isSome && !st.buf.isEmpty

/-- Flush the accumulated buffer into the record
(`result[current_field] = '\n'.join(current_value)`). -/
def PassState.flush (st : PassState) : Record :=
  match st.currentField with
  | some f => if !st.buf.isEmpty then st.acc.set f (joinNewline st.buf) else st.acc
  | none => st.acc

/-- One iteration of the second-pass line loop of `parse_analysis`:
strip the line; skip if empty; if it has a colon whose key matches an
alias, flush the previous field and start the new one (seeding the buffer
with the value when non-empty); otherwise append the line to the active
buffer unless its pre-colon text is some known alias; finally, on the last
line, flush the active buffer. -/
def secondPassStep (total : Nat) (st : PassState) (iLine : Nat × String) : PassState :=
  let line := pyStrip iLine.2
  if line = "" then st
  else
    let newFieldSt : Option PassState :=
      if hasColon line then
        let key := pyLower (pyStrip (beforeColon line))
        let value := pyStrip (afterColon line)
        match fieldOrder.find? (fun f => (fieldAliases f).contains key) with
        | some f =>
          some { currentField := some f,
                 buf := if value ≠ "" then [value] else [],
                 acc := st.flush }
        | none => none
      else none
    let st2 : PassState :=
      match newFieldSt with
      | some st' => st'
      | none =>
        if st.currentField.isSome then
          if !hasColon line || !allAliases.contains (pyLower (pyStrip (beforeColon line))) then
            { st with buf := st.buf ++ [line] }
          else st
        else st
    if iLine.1 = total - 1 && st2.flushable then { st2 with acc := st2.flush }
    else st2

/-- Second pass of `parse_analysis`: structured line-by-line field
extraction over `analysis.split('\n')`. -/
def secondPass (analysis : String) (r : Record) : Record :=
  let ls := pySplitNewlines analysis
  (ls.enum.foldl (secondPassStep ls.length)
    { currentField := none, buf := [], acc := r }).acc

/-- The numeric fields post-processed by the third pass, in loop order. -/
def numericFields : List FieldId :=
  [.totalExperience, .relevancyScore, .strongMatchesScore,
   .partialMatchesScore, .jobStability]

/-- Third pass of `parse_analysis`: for each numeric field that is not the
sentinel, replace its value by the first number token found in it. -/
def thirdPass (r : Record) : Record :=
  numericFields.foldl (fun r f =>
    if r.get f ≠ notAvailable then
      match searchNumber (r.get f) with
      | some tok => r.set f tok
      | none => r
    else r) r

/-- The special Job Stability handling of `parse_analysis`: when the field
is not the sentinel and not purely numeric, extract `(\d+(?:\.\d+)?)/10`
or, failing that, any number token. (The source writes the result through
the leftover loop variable `field`, which at that point is
`"Job Stability"` — the same field.) -/
def stabilitySpecial (r : Record) : Record :=
  if r.jobStability ≠ notAvailable && !isFullNumeric r.jobStability then
    match searchNumSlash10 r.jobStability with
    | some tok => { r with jobStability := tok }
    | none =>
      match searchNumber r.jobStability with
      | some tok => { r with jobStability := tok }
      | none => r
  else r

/-- The record assembled from the analysis text by the extraction passes
(first-pass regex scan, structured second pass, numeric third pass, Job
Stability special handling) — the state at which the fallback trigger is
evaluated. -/
def extractRecord (analysis : String) : Record :=
  stabilitySpecial (thirdPass (secondPass analysis (firstPass analysis initRecord)))

/-! ## The fallback trigger and the Heuristic Normalizer -/

/-- Python truthiness of an optional string argument
(`None` and `""` are falsy). -/
def pyTruthy : Option String → Bool
  | none => false
  | some s => s ≠ ""

/-- The fallback trigger of `parse_analysis`:
`(strong == "Not Available" or strong == "0") and (partial == "Not
Available" or partial == "0") and resume_text and job_description`. -/
def fallbackCond (r : Record) (resumeText jobDescription : Option String) : Bool :=
  (r.strongMatchesScore = notAvailable || r.strongMatchesScore = "0") &&
  (r.partialMatchesScore = notAvailable || r.partialMatchesScore = "0") &&
  pyTruthy resumeText && pyTruthy jobDescription

/-- Apply the fallback skill matcher's outputs to the record. -/
def applyFallback (r : Record) (resumeText jobDescription : String) : Record :=
  let out := calculate_skills_scores resumeText jobDescription
  { r with strongMatchesScore := toString out.1,
           partialMatchesScore := toString out.2.1,
           strongMatchesReasoning := out.2.2.1,
           partialMatchesReasoning := out.2.2.2 }

/-- The College Rating normalization of `parse_analysis` (lines 1192-1197):
a non-sentinel value containing `premium` becomes `"Premium"`; otherwise one
containing `non` or `not` becomes `"Non-Premium"`. -/
def normalizeCollegeRating (s : String) : String :=
  if s ≠ notAvailable then
    if substrOf "premium" (pyLower s) then "Premium"
    else if substrOf "non" (pyLower s) || substrOf "not" (pyLower s) then "Non-Premium"
    else s
  else s

/-- The International Team Experience normalization of `parse_analysis`:
short (< 5 characters) affirmative/negative values collapse to
`"Yes"` / `"No"`. -/
def normalizeInternational (s : String) : String :=
  if s ≠ notAvailable then
    if ["yes", "has", "worked", "experience"].any (fun w => substrOf w (pyLower s)) then
      if s.length < 5 then "Yes" else s
    else if ["no", "not", "none"].any (fun w => substrOf w (pyLower s)) then
      if s.length < 5 then "No" else s
    else s
  else s

/-- The LinkedIn URL handling of `parse_analysis`. -/
def linkedinStep (r : Record) (resumeText : Option String) : Record :=
  if pyTruthy resumeText && (r.linkedinURL = notAvailable || r.linkedinURL = "") then
    { r with linkedinURL := extract_linkedin_url (resumeText.getD "") }
  else if r.linkedinURL ≠ notAvailable then
    match reSearchStr reLinkedin1 r.linkedinURL with
    | some m => { r with linkedinURL := m }
    | none =>
      let extracted := extract_linkedin_url r.linkedinURL
      if extracted ≠ "" then { r with linkedinURL := extracted } else r
  else r

/-- The Portfolio URL handling of `parse_analysis`. -/
def portfolioStep (r : Record) : Record :=
  if r.portfolioURL ≠ notAvailable then
    match reSearchStr rePortfolio r.portfolioURL with
    | some m => { r with portfolioURL := m }
    | none =>
      if substrOf "not available" (pyLower r.portfolioURL) ||
          substrOf "not found" (pyLower r.portfolioURL) ||
          substrOf "not mentioned" (pyLower r.portfolioURL) then
        { r with portfolioURL := "" }
      else r
  else { r with portfolioURL := "" }

/-- The Competitor Experience handling of `parse_analysis`. -/
def competitorStep (r : Record) : Record :=
  if r.competitorExperience = notAvailable || r.competitorExperience = "" then
    { r with competitorExperience :=
        check_competitor_experience r.workHistory get_planful_competitors }
  else if substrOf "no" (pyLower r.competitorExperience) ||
      substrOf "not" (pyLower r.competitorExperience) then
    { r with competitorExperience := "" }
  else if !pyStartsWith (pyLower r.competitorExperience) "yes" then
    match get_planful_competitors.find? (fun comp =>
        substrOf (pyLower comp) (pyLower r.competitorExperience)) with
    | some comp => { r with competitorExperience := "Yes - " ++ comp }
    | none => { r with competitorExperience := "" }
  else r

/-- The Heuristic Normalizer of `parse_analysis` (source lines 1192-1254,
in source order): College Rating, International Team Experience, LinkedIn
URL, Portfolio URL, the Work History ← Latest Company fallback, Competitor
Experience, then `clean_text` over every field. -/
def normalizeRecord (r : Record) (resumeText : Option String) : Record :=
  let r := { r with collegeRating := normalizeCollegeRating r.collegeRating }
  let r := { r with internationalExperience :=
    normalizeInternational r.internationalExperience }
  let r := linkedinStep r resumeText
  let r := portfolioStep r
  let r := if r.workHistory = notAvailable && r.latestCompany ≠ notAvailable then
    { r with workHistory := r.latestCompany } else r
  let r := competitorStep r
  r.mapFields clean_text

/-! ## `parse_analysis` -/

/-- The final evaluation record: the field record plus the keys added at
the end of `parse_analysis`. `fallbackUsed` is a ghost flag recording
whether the fallback-skill-matcher branch was taken; it affects no other
field. -/
structure FinalRecord where
  record : Record
  overall : String
  selection : String
  phone : Option String
  fallbackUsed : Bool
deriving DecidableEq

/-- `parse_analysis(analysis, resume_text, job_description)` from the
source: `None` for empty/absent analysis text; otherwise the extraction
passes, the conditional fallback skill matcher, the heuristic normalizer,
`calculate_scores` (with `required_experience = 3`,
`stability_threshold = 2`), and the phone-number extraction. -/
def parseAnalysis (analysis resumeText jobDescription : Option String) :
    Option FinalRecord :=
  match analysis with
  | none => none
  | some a =>
    if a = "" then none
    else
      let r4 := extractRecord a
      let fb := fallbackCond r4 resumeText jobDescription
      let r5 := if fb then
        applyFallback r4 (resumeText.getD "") (jobDescription.getD "") else r4
      let r6 := normalizeRecord r5 resumeText
      let out := calculate_scores r6 3 2
      some { record := out.1,
             overall := fmtRound2 out.2.1,
             selection := out.2.2.1,
             phone := if pyTruthy resumeText then
               some (extract_phone_number (resumeText.getD "")) else none,
             fallbackUsed := fb }

/-! ## Theorems about the claims -/

/-- C1: counter to the claim, the College Rating normalizer does not exclude
values containing `non` from the `Premium` branch: the value `"Non-Premium"`
contains `non` (and `premium`), yet the normalizer rewrites it to
`"Premium"`, not `"Non-Premium"`. -/
theorem college_rating_normalizer_maps_non_premium_to_premium :
    substrOf "non" (pyLower "Non-Premium") = true ∧
    substrOf "premium" (pyLower "Non-Premium") = true ∧
    normalizeCollegeRating "Non-Premium" = "Premium" := by
  refine ⟨?_, ?_, ?_⟩ <;> decide

/-- C2: the Fallback Skill Matcher branch of `parse_analysis` is taken if
and only if the extracted Strong Matches Score and Partial Matches Score are
each the sentinel `"Not Available"` or the string `"0"`, and the résumé text
and job-description text are both supplied (non-`None`, non-empty). -/
theorem fallback_matcher_trigger_iff (a : String) (resume jd : Option String)
    (h : a ≠ "") :
    (parseAnalysis (some a) resume jd).map FinalRecord.fallbackUsed = some true ↔
      ((extractRecord a).strongMatchesScore = notAvailable ∨
        (extractRecord a).strongMatchesScore = "0") ∧
      ((extractRecord a).partialMatchesScore = notAvailable ∨
        (extractRecord a).partialMatchesScore = "0") ∧
      pyTruthy resume = true ∧ pyTruthy jd = true := by
  simp only [parseAnalysis, if_neg h, Option.map_some']
  simp [fallbackCond, Bool.and_eq_true, Bool.or_eq_true, decide_eq_true_eq,
    and_assoc]

/-- C2 witness: a concrete analysis whose extracted strong score is `"0"`
(and partial score the sentinel), with both texts supplied, does trigger
the fallback branch. -/
theorem fallback_matcher_trigger_iff_witness :
    (parseAnalysis (some "Strong Matches Score: 0") (some "x")
      (some "y")).map FinalRecord.fallbackUsed = some true :=
  (fallback_matcher_trigger_iff "Strong Matches Score: 0" (some "x") (some "y")
    (by decide)).mpr (by refine ⟨Or.inr ?_, Or.inl ?_, ?_, ?_⟩ <;> decide)

/-- C3: counter to the claim, the first-pass regex scan does not take
priority: on `"Strong Matches Score: 73\nStrong Matches: 10"` the regex scan
finds `73`, but the structured second pass (whose alias `strong matches`
matches the second line) runs afterwards and overwrites the field, so the
final extracted Strong Matches Score is `"10"`, not `"73"`. -/
theorem strong_score_regex_scan_overridden_by_second_pass :
    scanScore "Strong Matches Score"
      "Strong Matches Score: 73\nStrong Matches: 10" = some "73" ∧
    (parseAnalysis (some "Strong Matches Score: 73\nStrong Matches: 10")
      none none).map (fun fr => fr.record.strongMatchesScore) = some "10" := by
  constructor <;> decide

/-- C4 counterexample: with résumé `"python"` and job description `"python"`
there are no missing skills, yet the partial score is the floor 60, not the
ceiling 80 (no related matches were recorded); and with résumé `"django"`
and job description `"python"` the partial score 20 lies strictly below the
floor 30 (the ceiling 20 is below the floor there). -/
theorem fallback_partial_score_claim_false_at_inputs :
    (jdSkillsList "python" ≠ [] ∧ missingCount "python" "python" = 0 ∧
      partialScoreQ "python" "python" = 60 ∧ maxRelatedQ "python" "python" = 80) ∧
    (0 < missingCount "django" "python" ∧
      partialScoreQ "django" "python" = 20 ∧ minRelatedQ "django" "python" = 30 ∧
      maxRelatedQ "django" "python" = 20) := by
  have hjd : jdSkillsList "python" = ["python"] := by decide
  have hx1 : exactMatchesList "python" "python" = ["python"] := by decide
  have hr1 : relatedMatchesList "python" "python" = [] := by decide
  have hx2 : exactMatchesList "django" "python" = [] := by decide
  have hr2 : relatedMatchesList "django" "python" =
      ["django (related to python)", "django (transferable to python)"] := by decide
  have hs1 : strongScoreQ "python" "python" = 100 := by
    rw [strongScoreQ, if_neg (by rw [hjd]; simp), hjd, hx1]; norm_num
  have hs2 : strongScoreQ "django" "python" = 0 := by
    rw [strongScoreQ, if_neg (by rw [hjd]; simp), hjd, hx2]; norm_num
  have hm1 : missingCount "python" "python" = 0 := by
    rw [missingCount, hjd, hx1]
    rfl
  have hm2 : missingCount "django" "python" = 1 := by
    rw [missingCount, hjd, hx2]
    rfl
  have hmax1 : maxRelatedQ "python" "python" = 80 := by
    rw [maxRelatedQ, hs1]; rw [min_eq_left (by norm_num)]
  have hmin1 : minRelatedQ "python" "python" = 60 := by
    rw [minRelatedQ, hs1]; rw [max_eq_right (by norm_num)]; norm_num
  have hmax2 : maxRelatedQ "django" "python" = 20 := by
    rw [maxRelatedQ, hs2]; rw [min_eq_right (by norm_num)]; norm_num
  have hmin2 : minRelatedQ "django" "python" = 30 := by
    rw [minRelatedQ, hs2]; rw [max_eq_left (by norm_num)]
  have hp1 : partialScoreQ "python" "python" = 60 := by
    rw [partialScoreQ, hr1, hmin1]; simp
  have hp2 : partialScoreQ "django" "python" = 20 := by
    rw [partialScoreQ, hr2, hm2, hmin2, hmax2]
    rw [if_pos (by simp), if_pos (by norm_num)]
    norm_num
  exact ⟨⟨by rw [hjd]; simp, hm1, hp1, hmax1⟩, ⟨by rw [hm2]; norm_num, hp2, hmin2, hmax2⟩⟩

/-- C4 amended: when at least one job-description skill was found, the
(unrounded) partial score equals the floor `max(30, strong*0.6)` whenever no
related matches were recorded (even with no missing skills); equals the
ceiling `min(80, strong+20)` when related matches exist and no skills are
missing; and when related matches exist and some skills are missing it is
the interpolation `floor + (ceiling - floor) * min(1, related/missing)`,
which lies between `min(floor, ceiling)` and `max(floor, ceiling)` (the
ceiling falls below the floor when the strong score is below 10). -/
theorem fallback_partial_score_floor_ceiling_interpolation
    (resume jd : String) (h : jdSkillsList jd ≠ []) :
    (relatedMatchesList resume jd = [] →
      partialScoreQ resume jd = minRelatedQ resume jd) ∧
    (relatedMatchesList resume jd ≠ [] → missingCount resume jd = 0 →
      partialScoreQ resume jd = maxRelatedQ resume jd) ∧
    (relatedMatchesList resume jd ≠ [] → 0 < missingCount resume jd →
      partialScoreQ resume jd =
        minRelatedQ resume jd + (maxRelatedQ resume jd - minRelatedQ resume jd) *
          min 1 (((relatedMatchesList resume jd).length : ℚ) /
            (missingCount resume jd : ℚ)) ∧
      min (minRelatedQ resume jd) (maxRelatedQ resume jd) ≤ partialScoreQ resume jd ∧
      partialScoreQ resume jd ≤ max (minRelatedQ resume jd) (maxRelatedQ resume jd)) := by
  refine ⟨fun hrel => by simp [partialScoreQ, hrel], fun hrel hmiss => ?_, fun hrel hmiss => ?_⟩
  · simp [partialScoreQ, hrel, hmiss]
  · have hval : partialScoreQ resume jd =
        minRelatedQ resume jd + (maxRelatedQ resume jd - minRelatedQ resume jd) *
          min 1 (((relatedMatchesList resume jd).length : ℚ) /
            (missingCount resume jd : ℚ)) := by
      simp [partialScoreQ, hrel, hmiss]
    refine ⟨hval, ?_, ?_⟩ <;> rw [hval]
    all_goals
      set a := minRelatedQ resume jd with ha
      set b := maxRelatedQ resume jd with hb
      set c := min 1 (((relatedMatchesList resume jd).length : ℚ) /
        (missingCount resume jd : ℚ)) with hc
      have hc1 : c ≤ 1 := min_le_left _ _
      have hc0 : 0 ≤ c := by
        apply le_min
        · norm_num
        · positivity
      rcases le_total a b with hab | hab
    · rw [min_eq_left hab]; nlinarith
    · rw [min_eq_right hab]; nlinarith
    · rw [max_eq_right hab]; nlinarith
    · rw [max_eq_left hab]; nlinarith

/-- C4 witness: the amended theorem applied at résumé `"django"`, job
description `"python"` (one missing skill, two related matches). -/
theorem fallback_partial_score_floor_ceiling_interpolation_witness :
    min (minRelatedQ "django" "python") (maxRelatedQ "django" "python") ≤
      partialScoreQ "django" "python" ∧
    partialScoreQ "django" "python" ≤
      max (minRelatedQ "django" "python") (maxRelatedQ "django" "python") :=
  (((fallback_partial_score_floor_ceiling_interpolation "django" "python"
    (by decide)).2.2 (by decide) (by decide)).2)

/-- C5 counterexample: the Scoring Engine is not a pure function of the
record — it mutates the record's `"Relevancy Score (0-100)"` field (from
`"7"` to `"50.0"` on this input). -/
theorem calculate_scores_mutates_relevancy_field :
    (calculate_scores ((initRecord.set .strongMatchesScore "50").set
      .partialMatchesScore "50" |>.set .relevancyScore "7") 3 2).1 ≠
      ((initRecord.set .strongMatchesScore "50").set
        .partialMatchesScore "50" |>.set .relevancyScore "7") := by
  intro hEq
  set r0 : Record := ((initRecord.set .strongMatchesScore "50").set
    .partialMatchesScore "50" |>.set .relevancyScore "7") with hr0
  have h7 : r0.relevancyScore = "7" := by rw [hr0]; decide
  have hpf : parsePyFloat "50" = some ((1 : ℚ) * ((((50 : ℕ)) : ℚ) +
      (0 : ℚ) / (10 : ℚ) ^ (0 : ℕ))) := rfl
  have hpf50 : parsePyFloat "50" = some 50 := by rw [hpf]; norm_num
  have hrel : relevancyOf r0 = 50 := by
    rw [relevancyOf, strongMatchesOf, partialMatchesOf]
    rw [show r0.strongMatchesScore = "50" from by rw [hr0]; decide]
    rw [show r0.partialMatchesScore = "50" from by rw [hr0]; decide]
    rw [hpf50]
    show min ((50 : ℚ) * 0.7 + (50 : ℚ) * 0.3) 100 = 50
    rw [min_eq_left (by norm_num)]
    norm_num
  have hround : pythonRoundInt ((50 : ℚ) * 10) = 500 := by
    rw [show ((50 : ℚ) * 10) = 500 from by norm_num]
    unfold pythonRoundInt
    norm_num
  have hfmt : fmtRound1 (50 : ℚ) = "50.0" := by
    unfold fmtRound1
    rw [hround]
    decide
  have hout : ((calculate_scores r0 3 2).1).relevancyScore = "50.0" := by
    show relevancyStr r0 = "50.0"
    rw [relevancyStr, hrel, hfmt]
  rw [hEq, h7] at hout
  exact absurd hout (by decide)

/-- C5 amended: `calculate_scores` has exactly one effect on the record:
it overwrites `"Relevancy Score (0-100)"` with the computed relevancy
`str(round(min(0.7*strong + 0.3*partial, 100), 1))`; every other field is
returned unchanged, and there are no other side effects. -/
theorem calculate_scores_frame_only_relevancy (r : Record)
    (requiredExperience stabilityThreshold : ℚ) :
    (calculate_scores r requiredExperience stabilityThreshold).1 =
      { r with relevancyScore := relevancyStr r } := rfl

/-- C6: the Selection Recommendation is chosen by non-overlapping
inclusive-lower-bound bands — `s ≥ 85` Strong Fit, `70 ≤ s < 85` Good Fit,
`55 ≤ s < 70` Consider, `40 ≤ s < 55` Weak Fit, `s < 40` Reject — and the
result is always one of exactly these five labels. -/
theorem recommendation_band_thresholds (s : ℚ) :
    (85 ≤ s → recommend s = strongFitLabel) ∧
    (70 ≤ s ∧ s < 85 → recommend s = goodFitLabel) ∧
    (55 ≤ s ∧ s < 70 → recommend s = considerLabel) ∧
    (40 ≤ s ∧ s < 55 → recommend s = weakFitLabel) ∧
    (s < 40 → recommend s = rejectLabel) ∧
    (recommend s = strongFitLabel ∨ recommend s = goodFitLabel ∨
      recommend s = considerLabel ∨ recommend s = weakFitLabel ∨
      recommend s = rejectLabel) := by
  unfold recommend
  split_ifs with h1 h2 h3 h4 <;>
    refine ⟨?_, ?_, ?_, ?_, ?_, ?_⟩ <;>
      first
        | tauto
        | (intro hh; rfl)
        | (intro hh; exact absurd hh (by intro hh'; rcases hh' with ⟨hl, hr⟩ <;> linarith))
        | (intro hh; linarith)
        | (rintro ⟨hl, hr⟩; linarith)

/-- C6 witness: the band theorem evaluated at 90, 75, 60, 45 and 10. -/
theorem recommendation_band_thresholds_witness :
    recommend 90 = strongFitLabel ∧ recommend 75 = goodFitLabel ∧
    recommend 60 = considerLabel ∧ recommend 45 = weakFitLabel ∧
    recommend 10 = rejectLabel :=
  ⟨(recommendation_band_thresholds 90).1 (by norm_num),
   (recommendation_band_thresholds 75).2.1 ⟨by norm_num, by norm_num⟩,
   (recommendation_band_thresholds 60).2.2.1 ⟨by norm_num, by norm_num⟩,
   (recommendation_band_thresholds 45).2.2.2.1 ⟨by norm_num, by norm_num⟩,
   (recommendation_band_thresholds 10).2.2.2.2.1 (by norm_num)⟩

/-- C7: counter to the claim, the Heuristic Normalizer is not idempotent:
normalizing a record with College Rating `"non"` yields `"Non-Premium"`,
and normalizing that already-normalized record again changes it to
`"Premium"`. -/
theorem normalizer_second_pass_changes_normalized_record :
    (normalizeRecord { initRecord with collegeRating := "non" } none).collegeRating
      = "Non-Premium" ∧
    (normalizeRecord (normalizeRecord { initRecord with collegeRating := "non" }
      none) none).collegeRating = "Premium" := by
  constructor <;> decide

/-- C8: empty or absent analysis text makes extraction return `none` — no
record is produced (in particular, never a record with every field equal to
the sentinel). -/
theorem empty_or_none_analysis_yields_no_record (resume jd : Option String) :
    parseAnalysis none resume jd = none ∧ parseAnalysis (some "") resume jd = none :=
  ⟨rfl, rfl⟩

/-- C9: the overall weighted score is monotonically non-decreasing in each
of the seven components (relevancy, experience, stability, college,
leadership, international, competitor) when the other six are held fixed. -/
theorem overall_score_monotone_in_each_component (s : Scores) (x y : ℚ)
    (h : x ≤ y) :
    overallScore { s with relevancy := x } ≤ overallScore { s with relevancy := y } ∧
    overallScore { s with experience := x } ≤ overallScore { s with experience := y } ∧
    overallScore { s with stability := x } ≤ overallScore { s with stability := y } ∧
    overallScore { s with college := x } ≤ overallScore { s with college := y } ∧
    overallScore { s with leadership := x } ≤ overallScore { s with leadership := y } ∧
    overallScore { s with international := x } ≤ overallScore { s with international := y } ∧
    overallScore { s with competitor := x } ≤ overallScore { s with competitor := y } := by
  unfold overallScore
  refine ⟨?_, ?_, ?_, ?_, ?_, ?_, ?_⟩ <;> simp <;> nlinarith

/-- C9 witness: monotonicity applied at the all-zero component record with
the component raised from 0 to 1. -/
theorem overall_score_monotone_in_each_component_witness :
    overallScore { Scores.mk 0 0 0 0 0 0 0 0 0 with relevancy := 0 } ≤
      overallScore { Scores.mk 0 0 0 0 0 0 0 0 0 with relevancy := 1 } ∧
    overallScore { Scores.mk 0 0 0 0 0 0 0 0 0 with competitor := 0 } ≤
      overallScore { Scores.mk 0 0 0 0 0 0 0 0 0 with competitor := 1 } :=
  ⟨(overall_score_monotone_in_each_component (Scores.mk 0 0 0 0 0 0 0 0 0) 0 1
      (by norm_num)).1,
   (overall_score_monotone_in_each_component (Scores.mk 0 0 0 0 0 0 0 0 0) 0 1
      (by norm_num)).2.2.2.2.2.2⟩

/-- C10: the stability component scales values at most 10 by ten, and for
every parsed Job Stability value above 10 it equals exactly 100 — on the
years-scale branch the sub-formulas for values below 1 and between 1 and 2
are unreachable, and `85 + min((v-2)*7.5, 15)` saturates at 100. -/
theorem stability_years_branch_saturates_at_100 (v : ℚ) :
    (v ≤ 10 → stabilityScore v = v * 10) ∧ (10 < v → stabilityScore v = 100) := by
  constructor
  · intro h; simp [stabilityScore, h]
  · intro h
    have h1 : ¬ v ≤ 10 := not_le.mpr h
    have h2 : ¬ v < 1 := by linarith
    have h3 : ¬ v < 2 := by linarith
    simp only [stabilityScore, if_neg h1, if_neg h2, if_neg h3]
    have hmin : (15 : ℚ) ≤ (v - 2) * 7.5 := by nlinarith
    rw [min_eq_right hmin]
    norm_num

/-- C10 witness: the theorem applied at 11 (and, for the rating branch,
at 9). -/
theorem stability_years_branch_saturates_at_100_witness :
    stabilityScore 9 = 90 ∧ stabilityScore 11 = 100 :=
  ⟨by rw [(stability_years_branch_saturates_at_100 9).1 (by norm_num)]; norm_num,
   (stability_years_branch_saturates_at_100 11).2 (by norm_num)⟩
